import Mathlib

/-!
Shallow embedding of `refi.py`: closed-form amortization math, a
month-by-month mortgage/investment simulation, and a comparator over
refinancing options.  Python floats are modelled by real numbers,
`math.exp` / `math.log` by `Real.exp` / `Real.log`, and Python
exceptions (`ValueError`, `ZeroDivisionError`, math domain errors) by
`Option` results (`none` = the call raises).
-/

open Real

namespace Refi

/-- The assumed annual inflation rate (module-level constant `INFLATION`). -/
noncomputable def INFLATION : ℝ := 0.03

/-- `applyMonthlyInterest(principal, annualRate)`: value of an investment
after one month at the given annual rate of return. -/
noncomputable def applyMonthlyInterest (principal annualRate : ℝ) : ℝ :=
  principal * (1 + annualRate / 12)

/-- `calcMonthlyPayment(amountFinanced, interestRate, years, fees)`:
`m = (r/12)·P·e^{rT}/(e^{rT} − 1) + fees`. -/
noncomputable def calcMonthlyPayment (amountFinanced interestRate years fees : ℝ) : ℝ :=
  (interestRate / 12) * amountFinanced * Real.exp (interestRate * years)
    / (Real.exp (interestRate * years) - 1) + fees

/-- `calcNumPayments(amountFinanced, interestRate, monthlyPayment, fees)`:
`12·T` with `T = (1/r)·log(12m/(12m − rP))`, `m = monthlyPayment − fees`.
`none` models the Python exceptions, in evaluation order: `1/r` raises
`ZeroDivisionError` when `r = 0`; the division inside `log` raises
`ZeroDivisionError` when `12m − rP = 0`; `log` raises a math domain
error when its argument is `≤ 0`. -/
noncomputable def calcNumPayments (amountFinanced interestRate monthlyPayment fees : ℝ) :
    Option ℝ :=
  let r := interestRate
  let m := monthlyPayment - fees
  let P := amountFinanced
  if r = 0 then none
  else if 12 * m - r * P = 0 then none
  else if 12 * m / (12 * m - r * P) ≤ 0 then none
  else some (12 * ((1 / r) * Real.log (12 * m / (12 * m - r * P))))

/-- The `RefinanceOption` record: monthly `payment`, number of monthly
payments `term`, one-time up-front `cost`. -/
structure RefinanceOption where
  payment : ℝ
  term : ℕ
  cost : ℝ

/-- The `investmentGrowthRate` argument of `simulate`: the Python code
duck-types on `type(rates) == type([])`, so it is either a single annual
rate or a per-month list of annual rates. -/
inductive GrowthRate where
  | scalar (rate : ℝ)
  | schedule (rates : List ℝ)

/-- The rate-resolution prologue of `simulate`: a list shorter than the
horizon raises `ValueError` (`none`); a scalar is expanded to
`[investmentGrowthRate] * horizon`. -/
noncomputable def resolveRates (investmentGrowthRate : GrowthRate) (horizon : ℕ) :
    Option (List ℝ) :=
  match investmentGrowthRate with
  | .schedule rates => if rates.length < horizon then none else some rates
  | .scalar rate => some (List.replicate horizon rate)

/-- One iteration of the `simulate` loop body: the month's mortgage
payment (`refiOption.payment` while `month < term`, else `0`, plus
`refiOption.cost` at month `0`), the net cash `monthlyCash - payment`,
and `reduce(applyMonthlyInterest, rates[month:horizon], netCash)`. -/
noncomputable def monthContribution (refiOption : RefinanceOption) (monthlyCash : ℝ)
    (rates : List ℝ) (horizon month : ℕ) : ℝ :=
  let payment := if month < refiOption.term then refiOption.payment else 0
  let payment := if month = 0 then payment + refiOption.cost else payment
  let netCash := monthlyCash - payment
  ((rates.drop month).take (horizon - month)).foldl applyMonthlyInterest netCash

/-- The `for month in range(horizon)` accumulation of `terminalWealth`. -/
noncomputable def simulateLoop (refiOption : RefinanceOption) (monthlyCash : ℝ)
    (rates : List ℝ) (horizon : ℕ) : ℝ :=
  (List.range horizon).foldl
    (fun terminalWealth month =>
      terminalWealth + monthContribution refiOption monthlyCash rates horizon month)
    0

/-- `simulate(refiOption, monthlyCash, investmentGrowthRate, horizon)`:
resolves the rates, raises (`none`) when `monthlyCash` is below the
option's payment, otherwise accumulates terminal wealth over the horizon
and discounts it by `exp(-INFLATION * horizon/12)`.  The `silent` flag
only controls console narration and never changes the returned value, so
it is not modelled. -/
noncomputable def simulate (refiOption : RefinanceOption) (monthlyCash : ℝ)
    (investmentGrowthRate : GrowthRate) (horizon : ℕ) : Option ℝ :=
  match resolveRates investmentGrowthRate horizon with
  | none => none
  | some rates =>
    if monthlyCash < refiOption.payment then none
    else some (simulateLoop refiOption monthlyCash rates horizon
        * Real.exp (-INFLATION * horizon / 12))

/-- `max(option.payment for option in refiOptions)` over a non-empty list. -/
noncomputable def maxPayment (o : RefinanceOption) (os : List RefinanceOption) : ℝ :=
  os.foldl (fun acc x => max acc x.payment) o.payment

/-- `max(option.term for option in refiOptions)` over a non-empty list. -/
def maxTerm (o : RefinanceOption) (os : List RefinanceOption) : ℕ :=
  os.foldl (fun acc x => max acc x.term) o.term

/-- One iteration of the comparator loop: a raising `simulate` aborts the
whole comparison; otherwise `maxOption` is replaced whenever
`val > maxVal` — note the source never updates `maxVal`, which therefore
stays at its initial value throughout. -/
noncomputable def compareStep (investmentGrowthRate : GrowthRate) (monthlyCash : ℝ)
    (horizon : ℕ) (acc : Option (ℝ × Option RefinanceOption))
    (option : RefinanceOption) : Option (ℝ × Option RefinanceOption) :=
  acc.bind fun state =>
    (simulate option monthlyCash investmentGrowthRate horizon).map fun val =>
      (state.1, if state.1 < val then some option else state.2)

/-- `compareRefiOptions(investmentGrowthRate, *refiOptions)`: `max` over
an empty argument tuple raises `ValueError` (outer `none`); otherwise
the loop starts from `maxVal = 0`, `maxOption = None` and returns
`maxOption` (inner `Option`). -/
noncomputable def compareRefiOptions (investmentGrowthRate : GrowthRate)
    (refiOptions : List RefinanceOption) : Option (Option RefinanceOption) :=
  match refiOptions with
  | [] => none
  | o :: os =>
    ((o :: os).foldl
        (compareStep investmentGrowthRate (maxPayment o os) (maxTerm o os))
        (some ((0 : ℝ), (none : Option RefinanceOption)))).map
      (fun state => state.2)

/-- The "pure baseline" of the spec: the full `monthlyCash` is deposited
into the investment every month, each deposit is compounded with
`applyMonthlyInterest` under the per-month rates through the horizon,
and the total is discounted at the inflation rate. -/
noncomputable def investBaseline (monthlyCash : ℝ) (rates : List ℝ) (horizon : ℕ) : ℝ :=
  ((List.range horizon).foldl
      (fun wealth month =>
        wealth + ((rates.drop month).take (horizon - month)).foldl
          applyMonthlyInterest monthlyCash)
      0)
    * Real.exp (-INFLATION * horizon / 12)

/-! ### Helper lemmas -/

lemma foldl_applyMonthlyInterest_zero (rs : List ℝ) :
    rs.foldl applyMonthlyInterest 0 = 0 := by
  induction rs with
  | nil => rfl
  | cons r rs ih =>
    rw [List.foldl_cons, show applyMonthlyInterest 0 r = 0 by
      simp [applyMonthlyInterest]]
    exact ih

lemma foldl_applyMonthlyInterest_replicate (n : ℕ) (r c : ℝ) :
    (List.replicate n r).foldl applyMonthlyInterest c = c * (1 + r / 12) ^ n := by
  induction n generalizing c with
  | zero => simp
  | succ n ih =>
    rw [List.replicate_succ, List.foldl_cons, ih, applyMonthlyInterest]
    ring

lemma range_foldl_add (f : ℕ → ℝ) (n : ℕ) (init : ℝ) :
    (List.range n).foldl (fun acc i => acc + f i) init
      = init + ∑ i ∈ Finset.range n, f i := by
  induction n with
  | zero => simp
  | succ n ih =>
    rw [List.range_succ, List.foldl_append, ih, List.foldl_cons, List.foldl_nil,
      Finset.sum_range_succ]
    ring

lemma simulateLoop_eq_sum (o : RefinanceOption) (c : ℝ) (rates : List ℝ) (h : ℕ) :
    simulateLoop o c rates h
      = ∑ month ∈ Finset.range h, monthContribution o c rates h month := by
  rw [simulateLoop, range_foldl_add, zero_add]

lemma one_lt_exp_of_pos {x : ℝ} (hx : 0 < x) : 1 < Real.exp x :=
  calc (1 : ℝ) = Real.exp 0 := Real.exp_zero.symm
  _ < Real.exp x := Real.exp_lt_exp.mpr hx

lemma calcNumPayments_eq_none (P r m fees : ℝ) (_hP : 0 < P) (hr : 0 < r)
    (h1 : 0 ≤ 12 * (m - fees)) (h2 : 12 * (m - fees) ≤ r * P) :
    calcNumPayments P r m fees = none := by
  simp only [calcNumPayments]
  rw [if_neg (ne_of_gt hr)]
  by_cases hd : 12 * (m - fees) - r * P = 0
  · rw [if_pos hd]
  · rw [if_neg hd, if_pos]
    exact div_nonpos_iff.mpr (Or.inl ⟨h1, by linarith⟩)

lemma calcNumPayments_eq_some (P r m fees : ℝ) (hP : 0 < P) (hr : 0 < r)
    (hcon : ¬(0 ≤ 12 * (m - fees) ∧ 12 * (m - fees) ≤ r * P)) :
    calcNumPayments P r m fees
      = some (12 * ((1 / r) * Real.log
          (12 * (m - fees) / (12 * (m - fees) - r * P)))) := by
  have hrP : 0 < r * P := mul_pos hr hP
  rw [not_and_or, not_le, not_le] at hcon
  simp only [calcNumPayments]
  rw [if_neg (ne_of_gt hr)]
  rcases hcon with hneg | hbig
  · have hd : 12 * (m - fees) - r * P < 0 := by linarith
    rw [if_neg (ne_of_lt hd), if_neg]
    exact not_le.mpr (div_pos_iff.mpr (Or.inr ⟨hneg, hd⟩))
  · have hd : 0 < 12 * (m - fees) - r * P := by linarith
    rw [if_neg (ne_of_gt hd), if_neg]
    exact not_le.mpr (div_pos_iff.mpr (Or.inl ⟨by linarith, hd⟩))

lemma simulate_equal_budget (o : RefinanceOption) (r : ℝ) (h : ℕ)
    (hpos : 0 < h) (hterm : h ≤ o.term) :
    simulate o o.payment (GrowthRate.scalar r) h
      = some (-o.cost * (1 + r / 12) ^ h * Real.exp (-INFLATION * h / 12)) := by
  simp only [simulate, resolveRates]
  rw [if_neg (lt_irrefl o.payment)]
  have hmain : monthContribution o o.payment (List.replicate h r) h 0
      = -o.cost * (1 + r / 12) ^ h := by
    simp only [monthContribution, if_pos (lt_of_lt_of_le hpos hterm),
      eq_self_iff_true, if_true, List.drop_zero, Nat.sub_zero,
      List.take_replicate, min_self, foldl_applyMonthlyInterest_replicate]
    ring
  have hother : ∀ b ∈ Finset.range h, b ≠ 0 →
      monthContribution o o.payment (List.replicate h r) h b = 0 := by
    intro b hbmem hb0
    have hblt : b < h := Finset.mem_range.mp hbmem
    simp only [monthContribution, if_pos (lt_of_lt_of_le hblt hterm), if_neg hb0,
      sub_self]
    exact foldl_applyMonthlyInterest_zero _
  rw [simulateLoop_eq_sum,
    Finset.sum_eq_single 0 hother
      (fun h0 => absurd (Finset.mem_range.mpr hpos) h0), hmain]

lemma simulate_concrete_value :
    simulate ⟨1432.25, 360, 5000⟩ 1432.25 (GrowthRate.scalar 0.05) 360
      = some (-5000 * (1 + 0.05 / 12) ^ 360 * Real.exp (-0.03 * 360 / 12)) := by
  have h := simulate_equal_budget ⟨1432.25, 360, 5000⟩ 0.05 360 (by norm_num)
    (by norm_num)
  rw [h]
  norm_num [INFLATION]

lemma simulate_horizon_zero (o : RefinanceOption) (c : ℝ) (gr : GrowthRate)
    (hc : o.payment ≤ c) : simulate o c gr 0 = some 0 := by
  cases gr with
  | scalar r => simp [simulate, resolveRates, simulateLoop, not_lt.mpr hc]
  | schedule rs => simp [simulate, resolveRates, simulateLoop, not_lt.mpr hc]

lemma compare_fold_nonpos (gr : GrowthRate) (cash : ℝ) (hz : ℕ)
    (opts : List RefinanceOption) (m : ℝ) (mo : Option RefinanceOption)
    (hall : ∀ o' ∈ opts, ∃ v, simulate o' cash gr hz = some v ∧ v ≤ m) :
    opts.foldl (compareStep gr cash hz) (some (m, mo)) = some (m, mo) := by
  induction opts with
  | nil => rfl
  | cons a l ih =>
    obtain ⟨v, hv, hvm⟩ := hall a (List.mem_cons_self a l)
    have hstep : compareStep gr cash hz (some (m, mo)) a = some (m, mo) := by
      simp [compareStep, hv, not_lt.mpr hvm]
    rw [List.foldl_cons, hstep]
    exact ih fun o' ho' => hall o' (List.mem_cons_of_mem a ho')

lemma foldl_maxPayment_init_le (l : List RefinanceOption) (a : ℝ) :
    a ≤ l.foldl (fun acc x => max acc x.payment) a := by
  induction l generalizing a with
  | nil => exact le_refl a
  | cons b t ih =>
    exact le_trans (le_max_left a b.payment) (ih (max a b.payment))

lemma foldl_maxPayment_mem_le (l : List RefinanceOption) (a : ℝ) :
    ∀ x ∈ l, x.payment ≤ l.foldl (fun acc x => max acc x.payment) a := by
  induction l generalizing a with
  | nil => intro x hx; exact absurd hx (List.not_mem_nil x)
  | cons b t ih =>
    intro x hx
    rw [List.foldl_cons]
    rcases List.mem_cons.mp hx with rfl | hxt
    · exact le_trans (le_max_right a x.payment) (foldl_maxPayment_init_le t _)
    · exact ih (max a b.payment) x hxt

lemma le_maxPayment (o : RefinanceOption) (os : List RefinanceOption) :
    ∀ x ∈ o :: os, x.payment ≤ maxPayment o os := by
  intro x hx
  rcases List.mem_cons.mp hx with rfl | hxt
  · exact foldl_maxPayment_init_le os x.payment
  · exact foldl_maxPayment_mem_le os o.payment x hxt

lemma foldl_maxTerm_zero (l : List RefinanceOption) (a : ℕ) (ha : a = 0)
    (hl : ∀ x ∈ l, x.term = 0) :
    l.foldl (fun acc x => max acc x.term) a = 0 := by
  induction l generalizing a with
  | nil => exact ha
  | cons b t ih =>
    rw [List.foldl_cons]
    exact ih (max a b.term)
      (by rw [ha, hl b (List.mem_cons_self b t)]; exact max_self 0)
      (fun x hx => hl x (List.mem_cons_of_mem b hx))

lemma maxTerm_eq_zero (o : RefinanceOption) (os : List RefinanceOption)
    (hall : ∀ x ∈ o :: os, x.term = 0) : maxTerm o os = 0 :=
  foldl_maxTerm_zero os o.term (hall o (List.mem_cons_self o os))
    (fun x hx => hall x (List.mem_cons_of_mem o hx))

/-! ### Claims -/

/-- Claim C7: `compareRefiOptions` invoked with zero options fails with an
error (`max` over the empty sequence raises `ValueError`) rather than
returning a result. -/
theorem compareRefiOptions_empty_raises (gr : GrowthRate) :
    compareRefiOptions gr [] = none := rfl

/-- Claim C8: simulating with a scalar annual rate `r` gives the same
result as simulating with the per-month schedule of `horizon` copies of
`r`: the scalar form is resolved to exactly that list before the loop. -/
theorem simulate_scalar_eq_replicate_schedule (o : RefinanceOption) (c r : ℝ) (h : ℕ) :
    simulate o c (GrowthRate.scalar r) h
      = simulate o c (GrowthRate.schedule (List.replicate h r)) h := by
  simp [simulate, resolveRates]

/-- Claim C3: `simulate` fails (raises `ValueError`) if and only if either
the growth rate is a list shorter than the horizon, or the monthly cash
is strictly below the option's payment; otherwise it returns a value. -/
theorem simulate_none_iff (o : RefinanceOption) (c : ℝ) (gr : GrowthRate) (h : ℕ) :
    simulate o c gr h = none ↔
      (∃ rs, gr = GrowthRate.schedule rs ∧ rs.length < h) ∨ c < o.payment := by
  cases gr with
  | scalar r =>
    simp only [simulate, resolveRates]
    split_ifs with hc <;> simp [hc]
  | schedule rs =>
    by_cases hlen : rs.length < h
    · simp [simulate, resolveRates, hlen]
    · simp only [simulate, resolveRates, if_neg hlen]
      split_ifs with hc <;> simp [hc, hlen]

/-- Claim C4: for every principal `P > 0`, rate `r > 0` and duration
`years > 0`, feeding `calcMonthlyPayment`'s result back into
`calcNumPayments` recovers exactly `years * 12` (an identity over the
reals). -/
theorem calcNumPayments_calcMonthlyPayment_roundtrip (P r years : ℝ)
    (hP : 0 < P) (hr : 0 < r) (hy : 0 < years) :
    calcNumPayments P r (calcMonthlyPayment P r years 0) 0 = some (years * 12) := by
  have hr0 : r ≠ 0 := ne_of_gt hr
  have hP0 : P ≠ 0 := ne_of_gt hP
  have hE1 : 1 < Real.exp (r * years) := one_lt_exp_of_pos (by positivity)
  have hEsub : (0 : ℝ) < Real.exp (r * years) - 1 := by linarith
  set E := Real.exp (r * years) with hEdef
  have hEs0 : E - 1 ≠ 0 := ne_of_gt hEsub
  have hM : calcMonthlyPayment P r years 0 = (r / 12) * P * E / (E - 1) := by
    rw [calcMonthlyPayment]; ring
  have key1 : 12 * (calcMonthlyPayment P r years 0 - 0) - r * P
      = r * P / (E - 1) := by
    rw [sub_zero, hM]; field_simp; ring
  have hd : (0 : ℝ) < r * P / (E - 1) := div_pos (by positivity) hEsub
  have key2 : 12 * (calcMonthlyPayment P r years 0 - 0)
      / (12 * (calcMonthlyPayment P r years 0 - 0) - r * P) = E := by
    rw [key1, sub_zero, hM]; field_simp; ring
  simp only [calcNumPayments]
  rw [if_neg hr0, if_neg (by rw [key1]; exact ne_of_gt hd),
    if_neg (by rw [key2]; exact not_le.mpr (lt_trans one_pos hE1)),
    key2, hEdef, Real.log_exp]
  congr 1
  field_simp
  ring

/-- Witness for C4 at `P = 1`, `r = 1`, `years = 1`. -/
theorem calcNumPayments_roundtrip_witness :
    (0 : ℝ) < 1 ∧ calcNumPayments 1 1 (calcMonthlyPayment 1 1 1 0) 0
      = some (1 * 12) :=
  ⟨one_pos, calcNumPayments_calcMonthlyPayment_roundtrip 1 1 1 one_pos one_pos one_pos⟩

/-- Counterexample to claim C6 as stated: at `P = 1`, `r = 1`,
`monthlyPayment = -1`, `fees = 0` the net payment satisfies
`12m' ≤ rP`, yet `calcNumPayments` does not fail — the log argument
`-12 / -13` is positive, so the code returns a (negative) value. -/
theorem calcNumPayments_negative_payment_no_error :
    12 * ((-1 : ℝ) - 0) ≤ 1 * 1 ∧ calcNumPayments 1 1 (-1) 0 ≠ none := by
  refine ⟨by norm_num, ?_⟩
  simp only [calcNumPayments]
  norm_num
  exact Option.some_ne_none _

/-- Claim C6 (amended): for `P > 0` and `r > 0`, `calcNumPayments` fails
exactly when `0 ≤ 12m'` and `12m' ≤ rP` (with `m' = monthlyPayment −
fees`); when the net payment is negative or large enough it returns the
value `12·(1/r)·log(12m' / (12m' − rP))`. -/
theorem calcNumPayments_none_iff (P r m fees : ℝ) (hP : 0 < P) (hr : 0 < r) :
    (calcNumPayments P r m fees = none ↔
        0 ≤ 12 * (m - fees) ∧ 12 * (m - fees) ≤ r * P) ∧
      (¬(0 ≤ 12 * (m - fees) ∧ 12 * (m - fees) ≤ r * P) →
        calcNumPayments P r m fees
          = some (12 * ((1 / r) * Real.log
              (12 * (m - fees) / (12 * (m - fees) - r * P))))) := by
  refine ⟨⟨?_, ?_⟩, calcNumPayments_eq_some P r m fees hP hr⟩
  · intro hnone
    by_contra hcon
    rw [calcNumPayments_eq_some P r m fees hP hr hcon] at hnone
    exact Option.some_ne_none _ hnone
  · rintro ⟨h1, h2⟩
    exact calcNumPayments_eq_none P r m fees hP hr h1 h2

/-- Claim C2 (amended): the concrete 30-year scenario returns the month-0
net cash `-5000` compounded `360` months (one application of the monthly
factor per month of the window, month 0 included) and discounted by
`e^{-0.03·360/12}`. -/
theorem simulate_concrete_scenario :
    simulate ⟨1432.25, 360, 5000⟩ 1432.25 (GrowthRate.scalar 0.05) 360
      = some (-5000 * (1 + 0.05 / 12) ^ 360 * Real.exp (-0.03 * 360 / 12)) :=
  simulate_concrete_value

/-- Counterexample to claim C2 as stated: the result is not `-5000`
compounded only `359` months — the slice `rates[0:360]` has `360`
entries, so the month-0 deposit is compounded `360` times. -/
theorem simulate_concrete_scenario_not_359 :
    simulate ⟨1432.25, 360, 5000⟩ 1432.25 (GrowthRate.scalar 0.05) 360
      ≠ some (-5000 * (1 + 0.05 / 12) ^ 359 * Real.exp (-0.03 * 360 / 12)) := by
  rw [simulate_concrete_value]
  intro heq
  have heq2 := Option.some.inj heq
  have hkne : (1 + 0.05 / 12 : ℝ) ≠ 0 := by norm_num
  have h1 : (-5000 : ℝ) * (1 + 0.05 / 12) ^ 360
      = -5000 * (1 + 0.05 / 12) ^ 359 :=
    mul_right_cancel₀ (Real.exp_ne_zero _) heq2
  have h2 : ((1 + 0.05 / 12 : ℝ)) ^ 360 = (1 + 0.05 / 12) ^ 359 :=
    mul_left_cancel₀ (by norm_num : (-5000 : ℝ) ≠ 0) h1
  have h3 : ((1 + 0.05 / 12 : ℝ)) ^ 359 * (1 + 0.05 / 12)
      = (1 + 0.05 / 12) ^ 359 * 1 := by
    rw [mul_one, ← pow_succ]
    exact h2
  have h4 : (1 + 0.05 / 12 : ℝ) = 1 :=
    mul_left_cancel₀ (pow_ne_zero 359 hkne) h3
  norm_num at h4

/-- Witness for C6 (amended) at `P = 1`, `r = 1`, `m = 2`, `fees = 0`. -/
theorem calcNumPayments_none_iff_witness :
    ¬(0 ≤ 12 * ((2 : ℝ) - 0) ∧ 12 * ((2 : ℝ) - 0) ≤ 1 * 1) ∧
      calcNumPayments 1 1 2 0
        = some (12 * ((1 / 1) * Real.log
            (12 * ((2 : ℝ) - 0) / (12 * ((2 : ℝ) - 0) - 1 * 1)))) :=
  ⟨by norm_num,
    (calcNumPayments_none_iff 1 1 2 0 one_pos one_pos).2 (by norm_num)⟩

/-- Claim C9: with `cost = 0` and `term = 0`, under the simulation's
preconditions (`monthlyCash ≥ payment`, rates resolving successfully),
`simulate` equals the pure invest-everything baseline: the mortgage
contributes nothing. -/
theorem simulate_zero_option_eq_baseline (o : RefinanceOption) (c : ℝ)
    (gr : GrowthRate) (h : ℕ) (rates : List ℝ)
    (hcost : o.cost = 0) (hterm : o.term = 0)
    (hres : resolveRates gr h = some rates) (hc : o.payment ≤ c) :
    simulate o c gr h = some (investBaseline c rates h) := by
  have hmc : ∀ month, monthContribution o c rates h month
      = ((rates.drop month).take (h - month)).foldl applyMonthlyInterest c := by
    intro month
    simp [monthContribution, hterm, hcost]
  simp only [simulate, hres]
  rw [if_neg (not_lt.mpr hc)]
  rw [investBaseline, simulateLoop]
  simp only [hmc]

/-- Witness for C9 at `option = ⟨1, 0, 0⟩`, `monthlyCash = 2`, scalar
rate `0`, horizon `1`. -/
theorem simulate_zero_option_eq_baseline_witness :
    (⟨1, 0, 0⟩ : RefinanceOption).payment ≤ 2 ∧
      simulate ⟨1, 0, 0⟩ 2 (GrowthRate.scalar 0) 1
        = some (investBaseline 2 [0] 1) :=
  ⟨by norm_num,
    simulate_zero_option_eq_baseline ⟨1, 0, 0⟩ 2 (GrowthRate.scalar 0) 1 [0]
      rfl rfl rfl (by norm_num)⟩

/-- Counterexample to claim C10 as stated: `simulate` at horizon `0` can
still fail — the budget check runs before the loop, so with
`monthlyCash = 0 < payment = 1` the call raises even though there are no
months to simulate. -/
theorem simulate_horizon_zero_budget_error :
    simulate ⟨1, 0, 0⟩ 0 (GrowthRate.scalar 0) 0 = none := by
  norm_num [simulate, resolveRates]

/-- Claim C10 (amended): provided `monthlyCash ≥ payment`, `simulate`
with horizon `0` runs zero loop iterations and returns exactly `0`;
consequently `compareRefiOptions` on options whose terms are all `0`
returns no option. -/
theorem simulate_and_compare_horizon_zero (gr : GrowthRate) :
    (∀ (o : RefinanceOption) (c : ℝ), o.payment ≤ c →
        simulate o c gr 0 = some 0) ∧
      (∀ (o : RefinanceOption) (os : List RefinanceOption),
        (∀ x ∈ o :: os, x.term = 0) →
          compareRefiOptions gr (o :: os) = some none) := by
  constructor
  · exact fun o c hc => simulate_horizon_zero o c gr hc
  · intro o os hall
    have hzt : maxTerm o os = 0 := maxTerm_eq_zero o os hall
    simp only [compareRefiOptions]
    rw [compare_fold_nonpos gr (maxPayment o os) (maxTerm o os) (o :: os) 0 none
      (fun o' ho' => ⟨0, by
        rw [hzt]
        exact simulate_horizon_zero o' _ gr (le_maxPayment o os o' ho'), le_refl 0⟩)]
    rfl

/-- Witness for C10 (amended): a single paid-off option. -/
theorem simulate_and_compare_horizon_zero_witness :
    simulate ⟨1, 0, 0⟩ 2 (GrowthRate.scalar 0) 0 = some 0 ∧
      compareRefiOptions (GrowthRate.scalar 0) [⟨1, 0, 0⟩] = some none :=
  ⟨(simulate_and_compare_horizon_zero (GrowthRate.scalar 0)).1 ⟨1, 0, 0⟩ 2
      (by norm_num),
    (simulate_and_compare_horizon_zero (GrowthRate.scalar 0)).2 ⟨1, 0, 0⟩ []
      (by simp)⟩

/-- Claim C5: starting from the literal `0` baseline with strict `>`,
the comparator returns no option whenever every option's present value
is `≤ 0`; with a single option it returns that option exactly when its
present value is strictly positive. -/
theorem compareRefiOptions_zero_baseline (gr : GrowthRate) :
    (∀ (o : RefinanceOption) (os : List RefinanceOption),
        (∀ o' ∈ o :: os, ∃ v,
            simulate o' (maxPayment o os) gr (maxTerm o os) = some v ∧ v ≤ 0) →
          compareRefiOptions gr (o :: os) = some none) ∧
      (∀ (o : RefinanceOption) (v : ℝ),
        simulate o o.payment gr o.term = some v →
          compareRefiOptions gr [o] = some (if 0 < v then some o else none)) := by
  constructor
  · intro o os hall
    simp only [compareRefiOptions]
    rw [compare_fold_nonpos gr (maxPayment o os) (maxTerm o os) (o :: os) 0 none
      hall]
    rfl
  · intro o v hv
    have hmp : maxPayment o [] = o.payment := rfl
    have hmt : maxTerm o [] = o.term := rfl
    simp only [compareRefiOptions, hmp, hmt, List.foldl_cons, List.foldl_nil]
    simp [compareStep, hv]

/-- Witness for C5: a paid-off single option with zero present value and
a one-option comparison with nonpositive value both yield no option. -/
theorem compareRefiOptions_zero_baseline_witness :
    compareRefiOptions (GrowthRate.scalar 0) [⟨1, 0, 0⟩] = some none ∧
      compareRefiOptions (GrowthRate.scalar 0.02) [⟨2, 0, 3⟩] = some none := by
  constructor
  · refine (compareRefiOptions_zero_baseline (GrowthRate.scalar 0)).1 ⟨1, 0, 0⟩ []
      ?_
    intro o' ho'
    have ho : o' = ⟨1, 0, 0⟩ := by simpa using ho'
    subst ho
    exact ⟨0, by norm_num [simulate, resolveRates, simulateLoop, maxPayment,
      maxTerm], le_refl 0⟩
  · have h2 := (compareRefiOptions_zero_baseline (GrowthRate.scalar 0.02)).2
      ⟨2, 0, 3⟩ 0 (by norm_num [simulate, resolveRates, simulateLoop])
    simpa using h2

/-- Claim C1 is violated by the code (`maxVal` is never updated inside
the comparison loop, so it stays `0` throughout): with two options whose
present values are both positive and the first strictly greater, the
comparator returns the second (last) option, while its own docstring
promises the option with the greatest present value. -/
theorem compareRefiOptions_stale_maxVal :
    compareRefiOptions (GrowthRate.scalar 0) [⟨2, 0, 0⟩, ⟨1, 1, 0⟩]
        = some (some ⟨1, 1, 0⟩) ∧
      ∃ pvA pvB : ℝ,
        simulate ⟨2, 0, 0⟩ 2 (GrowthRate.scalar 0) 1 = some pvA ∧
          simulate ⟨1, 1, 0⟩ 2 (GrowthRate.scalar 0) 1 = some pvB ∧
          0 < pvB ∧ pvB < pvA := by
  have hE : (0 : ℝ) < Real.exp (-INFLATION * 1 / 12) := Real.exp_pos _
  have hA : simulate ⟨2, 0, 0⟩ 2 (GrowthRate.scalar 0) 1
      = some (2 * Real.exp (-INFLATION * 1 / 12)) := by
    norm_num [simulate, resolveRates, simulateLoop, monthContribution,
      applyMonthlyInterest, List.range_succ]
  have hB : simulate ⟨1, 1, 0⟩ 2 (GrowthRate.scalar 0) 1
      = some (Real.exp (-INFLATION * 1 / 12)) := by
    norm_num [simulate, resolveRates, simulateLoop, monthContribution,
      applyMonthlyInterest, List.range_succ]
  constructor
  · have hmp : maxPayment ⟨2, 0, 0⟩ [⟨1, 1, 0⟩] = 2 := by
      simp only [maxPayment, List.foldl_cons, List.foldl_nil]
      exact max_eq_left (by norm_num)
    have hmt : maxTerm ⟨2, 0, 0⟩ [⟨1, 1, 0⟩] = 1 := by
      simp only [maxTerm, List.foldl_cons, List.foldl_nil]
      exact max_eq_right (by norm_num)
    have h01 : (0 : ℝ) < 2 * Real.exp (-INFLATION / 12) := by positivity
    have h02 : (0 : ℝ) < Real.exp (-INFLATION / 12) := Real.exp_pos _
    have hstep1 : compareStep (GrowthRate.scalar 0) 2 1 (some (0, none)) ⟨2, 0, 0⟩
        = some (0, some ⟨2, 0, 0⟩) := by
      simp [compareStep, hA, h01]
    have hstep2 : compareStep (GrowthRate.scalar 0) 2 1
        (some (0, some ⟨2, 0, 0⟩)) ⟨1, 1, 0⟩ = some (0, some ⟨1, 1, 0⟩) := by
      simp [compareStep, hB, h02]
    simp only [compareRefiOptions, hmp, hmt, List.foldl_cons, List.foldl_nil,
      hstep1, hstep2]
    rfl
  · exact ⟨2 * Real.exp (-INFLATION * 1 / 12), Real.exp (-INFLATION * 1 / 12),
      hA, hB, hE, by linarith⟩

end Refi
